import Mathlib

/-!
Verification of the connectivity-monitor (heartbeat) loop of `src/app.py`.

The Python loop `heartbeat_check` polls a backend, keeps a consecutive-failure
counter inside the global dictionary `connection_state`, publishes one
`connection_status` event per poll over the push channel, and gives up once the
counter reaches `MAX_HEARTBEAT_FAILURES`.  We embed the loop shallowly: each
loop iteration is driven by an `IterIn` record holding the outcome the
`send_backend_request` call would produce (a `(result, error)` pair of
Python-dict-like values, or a raised exception), the wall-clock instant
`datetime.now()` would return, and any external write to
`connection_state["connected"]` that lands at the iteration boundary.
-/

/-- JSON-ish values as the Python code sees them in a parsed response dict. -/
inductive PyVal where
  | bool (b : Bool)
  | str (s : String)
  | int (n : Int)
deriving DecidableEq

/-- Python truthiness of a primitive value. -/
def PyVal.truthy : PyVal → Bool
  | .bool b => b
  | .str s => !(s == "")
  | .int n => !(n == 0)

/-- A Python dict with string keys, as an association list. -/
abbrev PyDict := List (String × PyVal)

/-- `d.get(k, dflt)` on a Python dict. -/
def pyGet (d : PyDict) (k : String) (dflt : PyVal) : PyVal :=
  match d.find? (fun p => p.1 == k) with
  | some p => p.2
  | none => dflt

/-- Python truthiness of an optional dict (`None` and `{}` are falsy). -/
def dictTruthy : Option PyDict → Bool
  | none => false
  | some d => !d.isEmpty

/-- The global `connection_state` dictionary of `src/app.py` (lines 50-55). -/
structure ConnState where
  connected : Bool
  last_heartbeat : Option Nat
  heartbeat_failures : Nat
  reconnect_in_progress : Bool
deriving DecidableEq

/-- Its initial value: `{"connected": False, "last_heartbeat": None,
"heartbeat_failures": 0, "reconnect_in_progress": False}`. -/
def connection_state : ConnState :=
  { connected := false, last_heartbeat := none, heartbeat_failures := 0,
    reconnect_in_progress := false }

/-- What one `send_backend_request("heartbeat", ...)` call produces inside the
`try` block: either a `(result, error)` pair of optional dicts, or a raised
exception carrying a message. -/
inductive PollOutcome where
  | ok (result : Option PyDict) (error : Option PyDict)
  | exn (msg : String)
deriving DecidableEq

/-- The success test of `src/app.py` line 177:
`if not error and result and result.get("connected", False):`. -/
def heartbeatOk (result error : Option PyDict) : Bool :=
  !dictTruthy error && dictTruthy result &&
    (pyGet (result.getD []) "connected" (.bool false)).truthy

/-- Whether a poll outcome takes the success branch of the loop body. -/
def outcomeSuccess : PollOutcome → Bool
  | .ok result error => heartbeatOk result error
  | .exn _ => false

/-- One `socketio.emit` call: channel name plus the payload fields the three
emit sites of `heartbeat_check` populate. -/
structure Emitted where
  channel : String
  success : Bool
  message : String
  timestamp : Option Nat
  consecutive_failures : Option Nat
  max_failures : Option Nat
deriving DecidableEq

/-- Result of executing the body of one `while` iteration: the updated
`connection_state`, the single event emitted, and whether `break` ran. -/
structure StepResult where
  state : ConnState
  event : Emitted
  brk : Bool
deriving DecidableEq

/-- The body of one iteration of `heartbeat_check` (src/app.py lines 173-232),
given the outcome of the `send_backend_request` call and the current time. -/
def heartbeatBody (M : Nat) (st : ConnState) (o : PollOutcome) (now : Nat) :
    StepResult :=
  match o with
  | .ok result error =>
    if heartbeatOk result error then
      { state := { st with heartbeat_failures := 0, last_heartbeat := some now },
        event := { channel := "connection_status", success := true,
                   message := "Connected to IBKR", timestamp := some now,
                   consecutive_failures := none, max_failures := none },
        brk := false }
    else
      { state := { st with heartbeat_failures := st.heartbeat_failures + 1 },
        event := { channel := "connection_status", success := false,
                   message := "Disconnected from IBKR", timestamp := none,
                   consecutive_failures := some (st.heartbeat_failures + 1),
                   max_failures := some M },
        brk := decide (M ≤ st.heartbeat_failures + 1) }
  | .exn e =>
      { state := { st with heartbeat_failures := st.heartbeat_failures + 1 },
        event := { channel := "connection_status", success := false,
                   message := "Heartbeat error: " ++ e, timestamp := none,
                   consecutive_failures := some (st.heartbeat_failures + 1),
                   max_failures := some M },
        brk := decide (M ≤ st.heartbeat_failures + 1) }

/-- Input driving one iteration: an external write to
`connection_state["connected"]` landing at the iteration boundary (if any),
the poll outcome the backend call would produce, and the current time. -/
structure IterIn where
  extConnected : Option Bool
  outcome : PollOutcome
  now : Nat
deriving DecidableEq

/-- Apply an external write to the `connected` flag (readers/writers other
than the loop only touch this field around the loop's condition check). -/
def applyExt (st : ConnState) (e : Option Bool) : ConnState :=
  match e with
  | some b => { st with connected := b }
  | none => st

/-- Externally observable scheduling actions of the loop: the HTTP request
`send_backend_request("heartbeat", method="GET", timeout=5)` and the
`socketio.sleep(30)` at the bottom of the body. -/
inductive LoopAction where
  | request (endpoint : String) (method : String) (timeout : Nat)
  | sleep (seconds : Nat)
deriving DecidableEq

/-- Whether a loop action is an HTTP request. -/
def LoopAction.isReq : LoopAction → Bool
  | .request _ _ _ => true
  | .sleep _ => false

/-- Everything a run of the loop produces: the final `connection_state`, the
events emitted in order, and the request/sleep actions in order. -/
structure RunResult where
  state : ConnState
  events : List Emitted
  actions : List LoopAction
deriving DecidableEq

/-- The `while connection_state["connected"]:` loop of `heartbeat_check`,
run against a finite list of iteration inputs.  Each processed iteration
issues one request; a non-`break` iteration then sleeps 30 seconds; the loop
exits either on `break` (counter reached the maximum) or when the `connected`
flag is false at the iteration boundary. -/
def runHeartbeat (M : Nat) (st : ConnState) : List IterIn → RunResult
  | [] => ⟨st, [], []⟩
  | i :: rest =>
    let st0 := applyExt st i.extConnected
    if st0.connected then
      let s := heartbeatBody M st0 i.outcome i.now
      if s.brk then
        ⟨s.state, [s.event], [.request "heartbeat" "GET" 5]⟩
      else
        let r := runHeartbeat M s.state rest
        ⟨r.state, s.event :: r.events,
         .request "heartbeat" "GET" 5 :: .sleep 30 :: r.actions⟩
    else
      ⟨st0, [], []⟩

/-- Number of heartbeat requests a run issued. -/
def requestCount (r : RunResult) : Nat :=
  (r.actions.filter LoopAction.isReq).length

/-- `MAX_HEARTBEAT_FAILURES = int(os.environ.get("MAX_HEARTBEAT_FAILURES", 3))`
(src/app.py line 45); the environment is modelled as a partial map to the
already-parsed integers. -/
def MAX_HEARTBEAT_FAILURES (env : String → Option Nat) : Nat :=
  (env "MAX_HEARTBEAT_FAILURES").getD 3

/-- `DEFAULT_TIMEOUT = int(os.environ.get("DEFAULT_TIMEOUT", 60))`
(src/app.py line 43).  Not consulted by the heartbeat loop, whose request
timeout is the literal 5. -/
def DEFAULT_TIMEOUT (env : String → Option Nat) : Nat :=
  (env "DEFAULT_TIMEOUT").getD 60

/-- `heartbeat_check` as configured by the process environment: the loop run
with the threshold `MAX_HEARTBEAT_FAILURES`. -/
def heartbeat_check (env : String → Option Nat) (st : ConnState)
    (inputs : List IterIn) : RunResult :=
  runHeartbeat (MAX_HEARTBEAT_FAILURES env) st inputs

/-- Backend response of `GET /verify_connection`, as the spec's
external-interface section documents it. -/
structure VerifyResp where
  connected : Bool
  verified : Bool
deriving DecidableEq

/-- The record `checkOnce()` returns to the status endpoints. -/
structure CheckOnceResult where
  connected : Bool
  verified : Bool
  error : Option String
  timestamp : Nat
deriving DecidableEq

/-- Modelled from the spec: the body of `checkOnce()` (the single
synchronous reachability check behind the verify/health endpoints) is elided
from `src/app.py` (line 162 keeps only the comment "all other routes
unchanged"), so it is modelled from the spec's words: it performs one
bounded request — represented here by its outcome, a parsed response or a
raised error message — and returns `{connected, verified, timestamp}` on
success or `{connected:false, verified:false, error, timestamp}` on
exception, mutating no connection state. -/
def checkOnce (st : ConnState) (req : Except String VerifyResp) (now : Nat) :
    ConnState × CheckOnceResult :=
  match req with
  | .ok r =>
      (st, { connected := r.connected, verified := r.verified,
             error := none, timestamp := now })
  | .error e =>
      (st, { connected := false, verified := false,
             error := some e, timestamp := now })

/-! ### Concrete fixtures used by counterexamples and witnesses -/

/-- The state in which the loop is started: `connected` externally set true
(the loop's precondition), nothing else touched yet. -/
def runningState : ConnState := { connection_state with connected := true }

/-- A heartbeat response of exactly the shape the spec's external-interface
section documents for `GET /heartbeat`: the connectivity flag lives in the
field `connected_to_ibkr`. -/
def documentedHeartbeatResp : PyDict :=
  [("status", .str "alive"), ("connected_to_ibkr", .bool true),
   ("timestamp", .str "2026-10-12T00:00:00")]

/-- An environment that sets every (already-parsed) configuration variable
to 10. -/
def envAllTen : String → Option Nat := fun _ => some 10

/-- Three consecutive failing polls with no external writes. -/
def threeFailures : List IterIn :=
  [⟨none, .ok none none, 1⟩, ⟨none, .ok none none, 2⟩,
   ⟨none, .ok none none, 3⟩]

/-! ### Pure, spec-side descriptions of the counter and timestamp evolution -/

/-- New value of the failure counter after processing one poll outcome:
reset to 0 on success, incremented by 1 on failure or exception. -/
def stepCounter (c : Nat) (o : PollOutcome) : Nat :=
  if outcomeSuccess o then 0 else c + 1

/-- Counter after a sequence of processed outcomes, starting from `c`. -/
def foldCounter (c : Nat) (l : List PollOutcome) : Nat :=
  l.foldl stepCounter c

/-- Scan the outcomes most-recent-first, counting failures until the first
success; `init` if no poll ever succeeded. -/
def sinceRev (init : Nat) : List PollOutcome → Nat
  | [] => init
  | o :: l => if outcomeSuccess o then 0 else sinceRev init l + 1

/-- The number of failed polls since the most recent successful one (`init`
plus the total failure count when no poll succeeded) — the spec's wording. -/
def failuresSinceLastSuccess (init : Nat) (l : List PollOutcome) : Nat :=
  sinceRev init l.reverse

/-- New value of `last_heartbeat` after one processed iteration. -/
def stepLastBeat (lh : Option Nat) (i : IterIn) : Option Nat :=
  if outcomeSuccess i.outcome then some i.now else lh

/-- Scan the iterations most-recent-first for the latest success. -/
def lastBeatRev (init : Option Nat) : List IterIn → Option Nat
  | [] => init
  | i :: l => if outcomeSuccess i.outcome then some i.now else lastBeatRev init l

/-- The time of the most recent successful poll, or `init` when none
succeeded — the spec's wording for `lastHeartbeatAt`. -/
def lastSuccessTime (init : Option Nat) (l : List IterIn) : Option Nat :=
  lastBeatRev init l.reverse

/-- The value of `connection_state["connected"]` the loop condition reads at
the boundary of iteration `k`: the initial value overridden by the external
writes landing at boundaries `0..k`. -/
def extStep (b : Bool) (i : IterIn) : Bool := i.extConnected.getD b

/-- Connected flag observed by the loop condition at iteration boundary `k`. -/
def flagAt (b : Bool) (inputs : List IterIn) (k : Nat) : Bool :=
  (inputs.take (k + 1)).foldl extStep b

/-- Failure counter after the first `k` polls of the input sequence,
computed directly from the inputs. -/
def cntAfter (c : Nat) (inputs : List IterIn) (k : Nat) : Nat :=
  foldCounter c ((inputs.take k).map IterIn.outcome)

/-- Whether the `k`-th input is a failing poll. -/
def failAt (inputs : List IterIn) (k : Nat) : Bool :=
  match inputs.get? k with
  | some i => !outcomeSuccess i.outcome
  | none => false

/-- Whether processing poll `k` makes the counter reach the threshold: poll
`k` fails and the counter value after it is at least `M`.  This is the
condition under which iteration `k` executes `break`. -/
def stopBreakAt (M c : Nat) (inputs : List IterIn) (k : Nat) : Bool :=
  failAt inputs k && decide (M ≤ cntAfter c inputs (k + 1))

/-! ### Helper lemmas about the iteration body and single-step functions -/

@[simp] lemma applyExt_connected (st : ConnState) (e : Option Bool) :
    (applyExt st e).connected = e.getD st.connected := by
  cases e <;> simp [applyExt]

@[simp] lemma applyExt_failures (st : ConnState) (e : Option Bool) :
    (applyExt st e).heartbeat_failures = st.heartbeat_failures := by
  cases e <;> simp [applyExt]

@[simp] lemma applyExt_last (st : ConnState) (e : Option Bool) :
    (applyExt st e).last_heartbeat = st.last_heartbeat := by
  cases e <;> simp [applyExt]

@[simp] lemma applyExt_reconnect (st : ConnState) (e : Option Bool) :
    (applyExt st e).reconnect_in_progress = st.reconnect_in_progress := by
  cases e <;> simp [applyExt]

lemma heartbeatBody_failures (M : Nat) (st : ConnState) (o : PollOutcome)
    (now : Nat) :
    (heartbeatBody M st o now).state.heartbeat_failures =
      stepCounter st.heartbeat_failures o := by
  cases o with
  | ok result error =>
      by_cases h : heartbeatOk result error
      · simp [heartbeatBody, h, stepCounter, outcomeSuccess]
      · simp [heartbeatBody, h, stepCounter, outcomeSuccess]
  | exn e => simp [heartbeatBody, stepCounter, outcomeSuccess]

lemma heartbeatBody_connected (M : Nat) (st : ConnState) (o : PollOutcome)
    (now : Nat) :
    (heartbeatBody M st o now).state.connected = st.connected := by
  cases o with
  | ok result error =>
      by_cases h : heartbeatOk result error <;> simp [heartbeatBody, h]
  | exn e => simp [heartbeatBody]

lemma heartbeatBody_reconnect (M : Nat) (st : ConnState) (o : PollOutcome)
    (now : Nat) :
    (heartbeatBody M st o now).state.reconnect_in_progress =
      st.reconnect_in_progress := by
  cases o with
  | ok result error =>
      by_cases h : heartbeatOk result error <;> simp [heartbeatBody, h]
  | exn e => simp [heartbeatBody]

lemma heartbeatBody_last (M : Nat) (st : ConnState) (o : PollOutcome)
    (now : Nat) :
    (heartbeatBody M st o now).state.last_heartbeat =
      (if outcomeSuccess o then some now else st.last_heartbeat) := by
  cases o with
  | ok result error =>
      by_cases h : heartbeatOk result error
      · simp [heartbeatBody, h, outcomeSuccess]
      · simp [heartbeatBody, h, outcomeSuccess]
  | exn e => simp [heartbeatBody, outcomeSuccess]

lemma heartbeatBody_brk (M : Nat) (st : ConnState) (o : PollOutcome)
    (now : Nat) :
    (heartbeatBody M st o now).brk =
      (!outcomeSuccess o &&
        decide (M ≤ stepCounter st.heartbeat_failures o)) := by
  cases o with
  | ok result error =>
      by_cases h : heartbeatOk result error
      · simp [heartbeatBody, h, outcomeSuccess]
      · simp [heartbeatBody, h, outcomeSuccess, stepCounter]
  | exn e => simp [heartbeatBody, outcomeSuccess, stepCounter]

lemma heartbeatBody_event_success (M : Nat) (st : ConnState) (o : PollOutcome)
    (now : Nat) :
    (heartbeatBody M st o now).event.success = outcomeSuccess o := by
  cases o with
  | ok result error =>
      by_cases h : heartbeatOk result error <;>
        simp [heartbeatBody, h, outcomeSuccess]
  | exn e => simp [heartbeatBody, outcomeSuccess]

lemma heartbeatBody_event_channel (M : Nat) (st : ConnState) (o : PollOutcome)
    (now : Nat) :
    (heartbeatBody M st o now).event.channel = "connection_status" := by
  cases o with
  | ok result error =>
      by_cases h : heartbeatOk result error <;> simp [heartbeatBody, h]
  | exn e => simp [heartbeatBody]

/-! ### Unfolding lemmas for the loop -/

@[simp] lemma runHeartbeat_nil (M : Nat) (st : ConnState) :
    runHeartbeat M st [] = ⟨st, [], []⟩ := rfl

lemma runHeartbeat_cons_stop (M : Nat) (st : ConnState) (i : IterIn)
    (rest : List IterIn)
    (hc : (applyExt st i.extConnected).connected = false) :
    runHeartbeat M st (i :: rest) = ⟨applyExt st i.extConnected, [], []⟩ := by
  have hc' : i.extConnected.getD st.connected = false := by
    simpa using hc
  simp [runHeartbeat, hc']

lemma runHeartbeat_cons_brk (M : Nat) (st : ConnState) (i : IterIn)
    (rest : List IterIn)
    (hc : (applyExt st i.extConnected).connected = true)
    (hb : (heartbeatBody M (applyExt st i.extConnected) i.outcome i.now).brk
      = true) :
    runHeartbeat M st (i :: rest) =
      ⟨(heartbeatBody M (applyExt st i.extConnected) i.outcome i.now).state,
       [(heartbeatBody M (applyExt st i.extConnected) i.outcome i.now).event],
       [.request "heartbeat" "GET" 5]⟩ := by
  have hc' : i.extConnected.getD st.connected = true := by
    simpa using hc
  simp [runHeartbeat, hc', hb]

lemma runHeartbeat_cons_cont (M : Nat) (st : ConnState) (i : IterIn)
    (rest : List IterIn)
    (hc : (applyExt st i.extConnected).connected = true)
    (hb : (heartbeatBody M (applyExt st i.extConnected) i.outcome i.now).brk
      = false) :
    runHeartbeat M st (i :: rest) =
      ⟨(runHeartbeat M
          (heartbeatBody M (applyExt st i.extConnected) i.outcome i.now).state
          rest).state,
       (heartbeatBody M (applyExt st i.extConnected) i.outcome i.now).event ::
         (runHeartbeat M
           (heartbeatBody M (applyExt st i.extConnected) i.outcome i.now).state
           rest).events,
       .request "heartbeat" "GET" 5 :: .sleep 30 ::
         (runHeartbeat M
           (heartbeatBody M (applyExt st i.extConnected) i.outcome i.now).state
           rest).actions⟩ := by
  have hc' : i.extConnected.getD st.connected = true := by
    simpa using hc
  simp [runHeartbeat, hc', hb]

@[simp] lemma isReq_request (e m : String) (t : Nat) :
    LoopAction.isReq (.request e m t) = true := rfl

@[simp] lemma isReq_sleep (s : Nat) : LoopAction.isReq (.sleep s) = false := rfl

@[simp] lemma requestCount_mk (st : ConnState) (evs : List Emitted)
    (acts : List LoopAction) :
    requestCount ⟨st, evs, acts⟩ = (acts.filter LoopAction.isReq).length := rfl

/-! ### Single-step lemmas for the pure spec functions -/

@[simp] lemma cntAfter_zero (c : Nat) (inputs : List IterIn) :
    cntAfter c inputs 0 = c := by
  simp [cntAfter, foldCounter]

lemma cntAfter_cons_succ (c : Nat) (i : IterIn) (rest : List IterIn) (k : Nat) :
    cntAfter c (i :: rest) (k + 1) =
      cntAfter (stepCounter c i.outcome) rest k := by
  simp [cntAfter, foldCounter, List.take_succ_cons]

lemma flagAt_cons_zero (b : Bool) (i : IterIn) (rest : List IterIn) :
    flagAt b (i :: rest) 0 = extStep b i := by
  simp [flagAt, List.take_succ_cons]

lemma flagAt_cons_succ (b : Bool) (i : IterIn) (rest : List IterIn) (k : Nat) :
    flagAt b (i :: rest) (k + 1) = flagAt (extStep b i) rest k := by
  simp [flagAt, List.take_succ_cons]

@[simp] lemma failAt_cons_zero (i : IterIn) (rest : List IterIn) :
    failAt (i :: rest) 0 = !outcomeSuccess i.outcome := rfl

@[simp] lemma failAt_cons_succ (i : IterIn) (rest : List IterIn) (k : Nat) :
    failAt (i :: rest) (k + 1) = failAt rest k := rfl

lemma stopBreakAt_cons_zero (M c : Nat) (i : IterIn) (rest : List IterIn) :
    stopBreakAt M c (i :: rest) 0 =
      (!outcomeSuccess i.outcome && decide (M ≤ stepCounter c i.outcome)) := by
  simp [stopBreakAt, cntAfter_cons_succ]

lemma stopBreakAt_cons_succ (M c : Nat) (i : IterIn) (rest : List IterIn)
    (k : Nat) :
    stopBreakAt M c (i :: rest) (k + 1) =
      stopBreakAt M (stepCounter c i.outcome) rest k := by
  simp [stopBreakAt, cntAfter_cons_succ]

/-! ### Run-level lemmas: how the loop transforms the state and traces -/

lemma run_failures (M : Nat) : ∀ (inputs : List IterIn) (st : ConnState),
    (runHeartbeat M st inputs).state.heartbeat_failures =
      cntAfter st.heartbeat_failures inputs
        (requestCount (runHeartbeat M st inputs)) := by
  intro inputs
  induction inputs with
  | nil => intro st; simp
  | cons i rest ih =>
    intro st
    by_cases hc : (applyExt st i.extConnected).connected = true
    · by_cases hb :
        (heartbeatBody M (applyExt st i.extConnected) i.outcome i.now).brk
          = true
      · rw [runHeartbeat_cons_brk M st i rest hc hb]
        simp [List.filter, cntAfter_cons_succ, heartbeatBody_failures]
      · rw [runHeartbeat_cons_cont M st i rest hc
          (Bool.not_eq_true _ ▸ hb : _ = false)]
        simp only [requestCount_mk, List.filter, isReq_request, isReq_sleep,
          List.length_cons]
        rw [cntAfter_cons_succ]
        have hstep :
            stepCounter st.heartbeat_failures i.outcome =
              (heartbeatBody M (applyExt st i.extConnected) i.outcome
                i.now).state.heartbeat_failures := by
          rw [heartbeatBody_failures]; simp
        rw [hstep]
        simpa [requestCount] using
          ih (heartbeatBody M (applyExt st i.extConnected) i.outcome
            i.now).state
    · rw [runHeartbeat_cons_stop M st i rest (by simpa using hc)]
      simp [List.filter]

lemma run_last_heartbeat (M : Nat) : ∀ (inputs : List IterIn) (st : ConnState),
    (runHeartbeat M st inputs).state.last_heartbeat =
      (inputs.take (requestCount (runHeartbeat M st inputs))).foldl
        stepLastBeat st.last_heartbeat := by
  intro inputs
  induction inputs with
  | nil => intro st; simp
  | cons i rest ih =>
    intro st
    by_cases hc : (applyExt st i.extConnected).connected = true
    · by_cases hb :
        (heartbeatBody M (applyExt st i.extConnected) i.outcome i.now).brk
          = true
      · rw [runHeartbeat_cons_brk M st i rest hc hb]
        simp [List.filter, List.take_succ_cons, heartbeatBody_last,
          stepLastBeat]
      · rw [runHeartbeat_cons_cont M st i rest hc
          (Bool.not_eq_true _ ▸ hb : _ = false)]
        simp only [requestCount_mk, List.filter, isReq_request, isReq_sleep,
          List.length_cons, List.take_succ_cons, List.foldl_cons]
        have hstep :
            stepLastBeat st.last_heartbeat i =
              (heartbeatBody M (applyExt st i.extConnected) i.outcome
                i.now).state.last_heartbeat := by
          rw [heartbeatBody_last]; simp [stepLastBeat]
        rw [hstep]
        simpa [requestCount] using
          ih (heartbeatBody M (applyExt st i.extConnected) i.outcome
            i.now).state
    · rw [runHeartbeat_cons_stop M st i rest (by simpa using hc)]
      simp [List.filter]

lemma run_reconnect (M : Nat) : ∀ (inputs : List IterIn) (st : ConnState),
    (runHeartbeat M st inputs).state.reconnect_in_progress =
      st.reconnect_in_progress := by
  intro inputs
  induction inputs with
  | nil => intro st; simp
  | cons i rest ih =>
    intro st
    by_cases hc : (applyExt st i.extConnected).connected = true
    · by_cases hb :
        (heartbeatBody M (applyExt st i.extConnected) i.outcome i.now).brk
          = true
      · rw [runHeartbeat_cons_brk M st i rest hc hb]
        simp [heartbeatBody_reconnect]
      · rw [runHeartbeat_cons_cont M st i rest hc
          (Bool.not_eq_true _ ▸ hb : _ = false)]
        simpa [heartbeatBody_reconnect] using
          ih (heartbeatBody M (applyExt st i.extConnected) i.outcome
            i.now).state
    · rw [runHeartbeat_cons_stop M st i rest (by simpa using hc)]
      simp

lemma run_connected_ext (M : Nat) :
    ∀ (inputs : List IterIn) (st : ConnState),
    (∀ i ∈ inputs, i.extConnected = none) →
    (runHeartbeat M st inputs).state.connected = st.connected := by
  intro inputs
  induction inputs with
  | nil => intro st _; simp
  | cons i rest ih =>
    intro st h
    have hi : i.extConnected = none := h i (by simp)
    have hax : applyExt st i.extConnected = st := by rw [hi]; rfl
    by_cases hc : (applyExt st i.extConnected).connected = true
    · by_cases hb :
        (heartbeatBody M (applyExt st i.extConnected) i.outcome i.now).brk
          = true
      · rw [runHeartbeat_cons_brk M st i rest hc hb]
        simp [heartbeatBody_connected, hax]
      · rw [runHeartbeat_cons_cont M st i rest hc
          (Bool.not_eq_true _ ▸ hb : _ = false)]
        have := ih (heartbeatBody M (applyExt st i.extConnected) i.outcome
          i.now).state (fun j hj => h j (by simp [hj]))
        simpa [heartbeatBody_connected, hax] using this
    · rw [runHeartbeat_cons_stop M st i rest (by simpa using hc)]
      simp [hax]

lemma run_events_length (M : Nat) : ∀ (inputs : List IterIn) (st : ConnState),
    (runHeartbeat M st inputs).events.length =
      requestCount (runHeartbeat M st inputs) := by
  intro inputs
  induction inputs with
  | nil => intro st; simp
  | cons i rest ih =>
    intro st
    by_cases hc : (applyExt st i.extConnected).connected = true
    · by_cases hb :
        (heartbeatBody M (applyExt st i.extConnected) i.outcome i.now).brk
          = true
      · rw [runHeartbeat_cons_brk M st i rest hc hb]
        simp [List.filter]
      · rw [runHeartbeat_cons_cont M st i rest hc
          (Bool.not_eq_true _ ▸ hb : _ = false)]
        simpa [List.filter, requestCount] using
          ih (heartbeatBody M (applyExt st i.extConnected) i.outcome
            i.now).state
    · rw [runHeartbeat_cons_stop M st i rest (by simpa using hc)]
      simp [List.filter]

lemma run_events_channel (M : Nat) :
    ∀ (inputs : List IterIn) (st : ConnState),
    ∀ ev ∈ (runHeartbeat M st inputs).events,
      ev.channel = "connection_status" := by
  intro inputs
  induction inputs with
  | nil => intro st ev hev; simp at hev
  | cons i rest ih =>
    intro st ev hev
    by_cases hc : (applyExt st i.extConnected).connected = true
    · by_cases hb :
        (heartbeatBody M (applyExt st i.extConnected) i.outcome i.now).brk
          = true
      · rw [runHeartbeat_cons_brk M st i rest hc hb] at hev
        simp at hev
        rw [hev]
        exact heartbeatBody_event_channel _ _ _ _
      · rw [runHeartbeat_cons_cont M st i rest hc
          (Bool.not_eq_true _ ▸ hb : _ = false)] at hev
        simp at hev
        rcases hev with hev | hev
        · rw [hev]; exact heartbeatBody_event_channel _ _ _ _
        · exact ih _ ev hev
    · rw [runHeartbeat_cons_stop M st i rest (by simpa using hc)] at hev
      simp at hev

lemma run_actions_shape (M : Nat) :
    ∀ (inputs : List IterIn) (st : ConnState),
    ∀ a ∈ (runHeartbeat M st inputs).actions,
      a = .request "heartbeat" "GET" 5 ∨ a = .sleep 30 := by
  intro inputs
  induction inputs with
  | nil => intro st a ha; simp at ha
  | cons i rest ih =>
    intro st a ha
    by_cases hc : (applyExt st i.extConnected).connected = true
    · by_cases hb :
        (heartbeatBody M (applyExt st i.extConnected) i.outcome i.now).brk
          = true
      · rw [runHeartbeat_cons_brk M st i rest hc hb] at ha
        simp at ha
        exact Or.inl ha
      · rw [runHeartbeat_cons_cont M st i rest hc
          (Bool.not_eq_true _ ▸ hb : _ = false)] at ha
        simp at ha
        rcases ha with ha | ha | ha
        · exact Or.inl ha
        · exact Or.inr ha
        · exact ih _ a ha
    · rw [runHeartbeat_cons_stop M st i rest (by simpa using hc)] at ha
      simp at ha

lemma requestCount_cons_stop (M : Nat) (st : ConnState) (i : IterIn)
    (rest : List IterIn)
    (hc : (applyExt st i.extConnected).connected = false) :
    requestCount (runHeartbeat M st (i :: rest)) = 0 := by
  rw [runHeartbeat_cons_stop M st i rest hc]; rfl

lemma requestCount_cons_brk (M : Nat) (st : ConnState) (i : IterIn)
    (rest : List IterIn)
    (hc : (applyExt st i.extConnected).connected = true)
    (hb : (heartbeatBody M (applyExt st i.extConnected) i.outcome i.now).brk
      = true) :
    requestCount (runHeartbeat M st (i :: rest)) = 1 := by
  rw [runHeartbeat_cons_brk M st i rest hc hb]; rfl

lemma requestCount_cons_cont (M : Nat) (st : ConnState) (i : IterIn)
    (rest : List IterIn)
    (hc : (applyExt st i.extConnected).connected = true)
    (hb : (heartbeatBody M (applyExt st i.extConnected) i.outcome i.now).brk
      = false) :
    requestCount (runHeartbeat M st (i :: rest)) =
      requestCount (runHeartbeat M
        (heartbeatBody M (applyExt st i.extConnected) i.outcome i.now).state
        rest) + 1 := by
  rw [runHeartbeat_cons_cont M st i rest hc hb]
  simp [requestCount, List.filter]

/-- Characterization of which polls the loop issues: poll `k` is issued
exactly when `k` is within the supplied schedule, the `connected` flag is
still true at every iteration boundary up to and including `k`, and no
earlier poll made the failure counter reach the threshold. -/
lemma run_polls_iff (M : Nat) :
    ∀ (inputs : List IterIn) (st : ConnState) (k : Nat),
    k < requestCount (runHeartbeat M st inputs) ↔
      (k < inputs.length ∧
       (∀ j, j ≤ k → flagAt st.connected inputs j = true) ∧
       (∀ j, j < k → stopBreakAt M st.heartbeat_failures inputs j
         = false)) := by
  intro inputs
  induction inputs with
  | nil => intro st k; simp
  | cons i rest ih =>
    intro st k
    by_cases hc : (applyExt st i.extConnected).connected = true
    · have hflag0 : flagAt st.connected (i :: rest) 0 = true := by
        rw [flagAt_cons_zero]; simpa [extStep] using hc
      have hsb0eq : stopBreakAt M st.heartbeat_failures (i :: rest) 0 =
          (heartbeatBody M (applyExt st i.extConnected) i.outcome i.now).brk
          := by
        rw [stopBreakAt_cons_zero, heartbeatBody_brk]
        simp [stepCounter]
      by_cases hb :
        (heartbeatBody M (applyExt st i.extConnected) i.outcome i.now).brk
          = true
      · have hsb0 : stopBreakAt M st.heartbeat_failures (i :: rest) 0 = true
          := hsb0eq.trans hb
        rw [requestCount_cons_brk M st i rest hc hb]
        constructor
        · intro hk
          have hk0 : k = 0 := Nat.lt_one_iff.mp hk
          subst hk0
          refine ⟨Nat.succ_pos _, ?_, ?_⟩
          · intro j hj
            have hj0 : j = 0 := Nat.le_zero.mp hj
            subst hj0
            exact hflag0
          · intro j hj
            exact absurd hj (Nat.not_lt_zero j)
        · rintro ⟨-, -, hbrks⟩
          by_contra hk1
          have h0k : 0 < k := by
            rcases Nat.eq_zero_or_pos k with h | h
            · subst h; exact absurd Nat.zero_lt_one hk1
            · exact h
          have := hbrks 0 h0k
          rw [hsb0] at this
          exact absurd this (by simp)
      · have hbf :
            (heartbeatBody M (applyExt st i.extConnected) i.outcome
              i.now).brk = false := Bool.not_eq_true _ ▸ hb
        have hsb0 : stopBreakAt M st.heartbeat_failures (i :: rest) 0 = false
          := hsb0eq.trans hbf
        have hshift_flag : ∀ j,
            flagAt st.connected (i :: rest) (j + 1) =
              flagAt (heartbeatBody M (applyExt st i.extConnected) i.outcome
                i.now).state.connected rest j := by
          intro j
          rw [flagAt_cons_succ, heartbeatBody_connected]
          simp [extStep]
        have hshift_sb : ∀ j,
            stopBreakAt M st.heartbeat_failures (i :: rest) (j + 1) =
              stopBreakAt M (heartbeatBody M (applyExt st i.extConnected)
                i.outcome i.now).state.heartbeat_failures rest j := by
          intro j
          rw [stopBreakAt_cons_succ, heartbeatBody_failures]
          simp
        rw [requestCount_cons_cont M st i rest hc hbf]
        cases k with
        | zero =>
          constructor
          · intro _
            refine ⟨Nat.succ_pos _, ?_, ?_⟩
            · intro j hj
              have hj0 : j = 0 := Nat.le_zero.mp hj
              subst hj0
              exact hflag0
            · intro j hj
              exact absurd hj (Nat.not_lt_zero j)
          · intro _
            exact Nat.succ_pos _
        | succ k' =>
          rw [Nat.succ_lt_succ_iff,
            ih (heartbeatBody M (applyExt st i.extConnected) i.outcome
              i.now).state k']
          constructor
          · rintro ⟨hlen, hfl, hbr⟩
            refine ⟨by simpa using Nat.succ_lt_succ hlen, ?_, ?_⟩
            · intro j hj
              cases j with
              | zero => exact hflag0
              | succ j' =>
                rw [hshift_flag j']
                exact hfl j' (Nat.le_of_succ_le_succ hj)
            · intro j hj
              cases j with
              | zero => exact hsb0
              | succ j' =>
                rw [hshift_sb j']
                exact hbr j' (Nat.lt_of_succ_lt_succ hj)
          · rintro ⟨hlen, hfl, hbr⟩
            refine ⟨?_, ?_, ?_⟩
            · have : k' + 1 < rest.length + 1 := by simpa using hlen
              exact Nat.lt_of_succ_lt_succ this
            · intro j hj
              have := hfl (j + 1) (Nat.succ_le_succ hj)
              rw [hshift_flag j] at this
              exact this
            · intro j hj
              have := hbr (j + 1) (Nat.succ_lt_succ hj)
              rw [hshift_sb j] at this
              exact this
    · have hcf : (applyExt st i.extConnected).connected = false :=
        Bool.not_eq_true _ ▸ hc
      rw [requestCount_cons_stop M st i rest hcf]
      constructor
      · intro h
        exact absurd h (Nat.not_lt_zero k)
      · rintro ⟨-, hfl, -⟩
        have h0 := hfl 0 (Nat.zero_le k)
        rw [flagAt_cons_zero] at h0
        rw [show extStep st.connected i =
          (applyExt st i.extConnected).connected by simp [extStep]] at h0
        rw [hcf] at h0
        exact absurd h0 (by simp)

/-! ### The left-fold evolution agrees with the spec's wording
(failures counted backwards from the most recent poll) -/

lemma sinceRev_append (c : Nat) (o : PollOutcome) :
    ∀ l : List PollOutcome, sinceRev c (l ++ [o]) = sinceRev (stepCounter c o) l := by
  intro l
  induction l with
  | nil => simp [sinceRev, stepCounter]
  | cons x l ih => simp [sinceRev, ih]

lemma foldCounter_eq_failuresSince (l : List PollOutcome) :
    ∀ c : Nat, foldCounter c l = failuresSinceLastSuccess c l := by
  induction l with
  | nil => intro c; simp [foldCounter, failuresSinceLastSuccess, sinceRev]
  | cons o l ih =>
      intro c
      rw [foldCounter, List.foldl_cons]
      rw [show List.foldl stepCounter (stepCounter c o) l =
        foldCounter (stepCounter c o) l from rfl]
      rw [ih (stepCounter c o)]
      simp [failuresSinceLastSuccess, List.reverse_cons, sinceRev_append]

lemma lastBeatRev_append (init : Option Nat) (i : IterIn) :
    ∀ l : List IterIn,
      lastBeatRev init (l ++ [i]) = lastBeatRev (stepLastBeat init i) l := by
  intro l
  induction l with
  | nil => simp [lastBeatRev, stepLastBeat]
  | cons x l ih => simp [lastBeatRev, ih]

lemma foldl_stepLastBeat_eq (l : List IterIn) :
    ∀ init : Option Nat,
      l.foldl stepLastBeat init = lastSuccessTime init l := by
  induction l with
  | nil => intro init; simp [lastSuccessTime, lastBeatRev]
  | cons i l ih =>
      intro init
      rw [List.foldl_cons, ih (stepLastBeat init i)]
      simp [lastSuccessTime, List.reverse_cons, lastBeatRev_append]

/-! ## Claim theorems -/

/-- Claim C1: over any run of the heartbeat loop, the consecutive-failure
counter `connection_state["heartbeat_failures"]` equals the number of failed
polls since the most recent successful poll (offset by its starting value
when no poll succeeded): it is reset to 0 on every successful poll and
incremented by exactly 1 on every failed poll, the exception path included. -/
theorem heartbeat_failures_count_since_last_success (M : Nat)
    (st : ConnState) (inputs : List IterIn) :
    (runHeartbeat M st inputs).state.heartbeat_failures =
      failuresSinceLastSuccess st.heartbeat_failures
        ((inputs.take (requestCount (runHeartbeat M st inputs))).map
          IterIn.outcome) ∧
    ∀ o now, (heartbeatBody M st o now).state.heartbeat_failures =
      (if outcomeSuccess o then 0 else st.heartbeat_failures + 1) := by
  constructor
  · rw [run_failures M inputs st, cntAfter,
      foldCounter_eq_failuresSince]
  · intro o now
    rw [heartbeatBody_failures]
    rfl

/-- Claim C2: the loop stops issuing further requests exactly when the
consecutive-failure counter reaches the maximum (the `break` after
incrementing) or the `connected` flag has been externally set to false at an
iteration boundary; no other condition ends the loop — poll `k` is issued
precisely when it is scheduled, the flag was still true at every boundary up
to it, and no earlier poll pushed the counter to the threshold. -/
theorem heartbeat_loop_stop_characterization (M : Nat) (st : ConnState)
    (inputs : List IterIn) (k : Nat) :
    k < requestCount (runHeartbeat M st inputs) ↔
      (k < inputs.length ∧
       (∀ j, j ≤ k → flagAt st.connected inputs j = true) ∧
       (∀ j, j < k → stopBreakAt M st.heartbeat_failures inputs j
         = false)) :=
  run_polls_iff M inputs st k

/-- Claim C3: every poll the loop performs — success, failure or caught
exception — publishes exactly one event, and every published event goes out
on the `connection_status` channel: the event trace has exactly one entry
per issued request. -/
theorem one_status_event_per_poll (M : Nat) (st : ConnState)
    (inputs : List IterIn) :
    (runHeartbeat M st inputs).events.length =
      requestCount (runHeartbeat M st inputs) ∧
    ((runHeartbeat M st inputs).events.all fun ev =>
      ev.channel == "connection_status") = true := by
  refine ⟨run_events_length M inputs st, ?_⟩
  rw [List.all_eq_true]
  intro ev hev
  have := run_events_channel M inputs st ev hev
  simpa using this

/-- Claim C4 counterexample: a well-formed response of the documented shape
`{status: "alive", connected_to_ibkr: true, timestamp}` with no transport
error is NOT treated as a success by the loop body — the code tests
`result.get("connected", False)`, which is absent from that shape, so the
iteration takes the failure path (failure event, counter incremented,
`last_heartbeat` untouched). -/
theorem documented_shape_not_success :
    (heartbeatBody 3 runningState
      (.ok (some documentedHeartbeatResp) none) 7).event.success = false ∧
    (heartbeatBody 3 runningState
      (.ok (some documentedHeartbeatResp) none) 7).event.message
      = "Disconnected from IBKR" ∧
    (heartbeatBody 3 runningState
      (.ok (some documentedHeartbeatResp) none) 7).state.heartbeat_failures
      = 1 ∧
    (heartbeatBody 3 runningState
      (.ok (some documentedHeartbeatResp) none) 7).state.last_heartbeat
      = none := by
  decide

/-- Claim C4 amended: a poll iteration takes the success path if and only if
the request returns without a truthy error, with a truthy (non-empty) result
dict whose field `connected` — not `connected_to_ibkr` — is truthy; a
documented-shape response carrying only `connected_to_ibkr` is treated as a
failure. -/
theorem success_path_characterization (M : Nat) (st : ConnState)
    (result error : Option PyDict) (now : Nat) :
    (heartbeatBody M st (.ok result error) now).event.success = true ↔
      (dictTruthy error = false ∧
       ∃ d, result = some d ∧ d ≠ [] ∧
         (pyGet d "connected" (.bool false)).truthy = true) := by
  rw [heartbeatBody_event_success]
  cases result with
  | none => simp [outcomeSuccess, heartbeatOk, dictTruthy]
  | some d =>
      simp [outcomeSuccess, heartbeatOk, dictTruthy,
        Bool.and_eq_true, List.isEmpty_iff, Bool.not_eq_true',
        and_assoc]

/-- Claim C5: an exception raised by the poll request is caught inside the
loop body and handled exactly like the ordinary failure path — the counter
is incremented by 1, one failure status event is published on the same
channel, and the same threshold test decides the `break`; the resulting
state, break decision and counter fields coincide with those of any
non-exceptional failing poll.  (The embedding of the body is a total
function, so no exception escapes the loop.) -/
theorem exception_handled_as_failure (M : Nat) (st : ConnState) (e : String)
    (now now2 : Nat) (o : PollOutcome) (h : outcomeSuccess o = false) :
    (heartbeatBody M st (.exn e) now).state.heartbeat_failures
      = st.heartbeat_failures + 1 ∧
    (heartbeatBody M st (.exn e) now).event.success = false ∧
    (heartbeatBody M st (.exn e) now).event.channel = "connection_status" ∧
    (heartbeatBody M st (.exn e) now).brk
      = decide (M ≤ st.heartbeat_failures + 1) ∧
    (heartbeatBody M st (.exn e) now).state
      = (heartbeatBody M st o now2).state ∧
    (heartbeatBody M st (.exn e) now).brk = (heartbeatBody M st o now2).brk ∧
    (heartbeatBody M st (.exn e) now).event.consecutive_failures
      = (heartbeatBody M st o now2).event.consecutive_failures ∧
    (heartbeatBody M st (.exn e) now).event.max_failures
      = (heartbeatBody M st o now2).event.max_failures := by
  cases o with
  | ok result error =>
      have hok : heartbeatOk result error = false := by
        simpa [outcomeSuccess] using h
      refine ⟨rfl, rfl, rfl, rfl, ?_, ?_, ?_, ?_⟩ <;>
        simp [heartbeatBody, hok]
  | exn e2 =>
      exact ⟨rfl, rfl, rfl, rfl, rfl, rfl, rfl, rfl⟩

/-- Witness for C5 at a concrete failing poll. -/
theorem exception_handled_as_failure_witness :
    outcomeSuccess (.ok none none) = false ∧
    (heartbeatBody 3 runningState (.exn "boom") 1).state
      = (heartbeatBody 3 runningState (.ok none none) 2).state :=
  ⟨by decide,
   (exception_handled_as_failure 3 runningState "boom" 1 2 (.ok none none)
     (by decide)).2.2.2.2.1⟩

/-- Claim C6 counterexample: the success event's message is
"Connected to IBKR", not "Connected"; the ordinary failure event's message
is "Disconnected from IBKR", not "Disconnected"; and the exception-path
failure event carries "Heartbeat error: <e>" rather than any
"Disconnected" message. -/
theorem event_message_counterexample :
    (heartbeatBody 3 runningState (.ok none none) 5).event.message
      = "Disconnected from IBKR" ∧
    "Disconnected from IBKR" ≠ "Disconnected" ∧
    (heartbeatBody 3 runningState
      (.ok (some [("connected", .bool true)]) none) 5).event.success
      = true ∧
    (heartbeatBody 3 runningState
      (.ok (some [("connected", .bool true)]) none) 5).event.message
      = "Connected to IBKR" ∧
    "Connected to IBKR" ≠ "Connected" ∧
    (heartbeatBody 3 runningState (.exn "boom") 5).event.message
      = "Heartbeat error: boom" := by
  decide

/-- Claim C6 amended: the success event carries success=true, message
"Connected to IBKR" and a timestamp; the ordinary failure event carries
success=false, message "Disconnected from IBKR", the consecutive-failure
count and the maximum threshold; the exception-path failure event carries
success=false, message "Heartbeat error: <e>" and the same two counters. -/
theorem event_payloads (M : Nat) (st : ConnState)
    (result error : Option PyDict) (e : String) (now : Nat) :
    (heartbeatBody M st (.ok result error) now).event =
      (if heartbeatOk result error then
        { channel := "connection_status", success := true,
          message := "Connected to IBKR", timestamp := some now,
          consecutive_failures := none, max_failures := none }
      else
        { channel := "connection_status", success := false,
          message := "Disconnected from IBKR", timestamp := none,
          consecutive_failures := some (st.heartbeat_failures + 1),
          max_failures := some M }) ∧
    (heartbeatBody M st (.exn e) now).event =
      { channel := "connection_status", success := false,
        message := "Heartbeat error: " ++ e, timestamp := none,
        consecutive_failures := some (st.heartbeat_failures + 1),
        max_failures := some M } := by
  constructor
  · by_cases hok : heartbeatOk result error <;> simp [heartbeatBody, hok]
  · rfl

/-- Claim C7: `connection_state["last_heartbeat"]` is written only on the
success path — after any run it equals the time of the most recent
successful poll, or its initial value when no processed poll succeeded; a
single failing or exceptional iteration leaves it unchanged. -/
theorem last_heartbeat_only_on_success (M : Nat) (st : ConnState)
    (inputs : List IterIn) :
    (runHeartbeat M st inputs).state.last_heartbeat =
      lastSuccessTime st.last_heartbeat
        (inputs.take (requestCount (runHeartbeat M st inputs))) ∧
    ∀ o now, (heartbeatBody M st o now).state.last_heartbeat =
      (if outcomeSuccess o then some now else st.last_heartbeat) := by
  constructor
  · rw [run_last_heartbeat M inputs st, foldl_stepLastBeat_eq]
  · intro o now
    exact heartbeatBody_last M st o now

/-- Claim C8: `checkOnce()` never raises to its caller — it is a total
function into a result record: it leaves the connection state untouched,
stamps the current time, and either reports the response's fields with no
error, or reports `connected=false`, `verified=false` with an error
message. -/
theorem checkOnce_never_raises (st : ConnState)
    (req : Except String VerifyResp) (now : Nat) :
    (checkOnce st req now).1 = st ∧
    (checkOnce st req now).2.timestamp = now ∧
    ((checkOnce st req now).2.error = none ∨
      ((checkOnce st req now).2.connected = false ∧
       (checkOnce st req now).2.verified = false ∧
       (checkOnce st req now).2.error.isSome = true)) := by
  cases req with
  | ok r => exact ⟨rfl, rfl, Or.inl rfl⟩
  | error e => exact ⟨rfl, rfl, Or.inr ⟨rfl, rfl, rfl⟩⟩

/-- Claim C9 counterexample: in an environment that sets every
configuration variable to 10, the loop still sleeps 30 seconds and issues
its request with timeout 5 — the poll interval and request timeout are
hard-coded literals, not environment settings — while the failure threshold
does follow the environment. -/
theorem config_not_env_counterexample :
    MAX_HEARTBEAT_FAILURES envAllTen = 10 ∧
    DEFAULT_TIMEOUT envAllTen = 10 ∧
    (heartbeat_check envAllTen runningState
      [⟨none, .ok none none, 0⟩]).actions
      = [.request "heartbeat" "GET" 5, .sleep 30] := by
  decide

/-- Claim C9 amended: only the maximum consecutive-failure threshold is an
environment-style setting (`MAX_HEARTBEAT_FAILURES`, default 3); the poll
interval and the per-request timeout are the fixed literals 30 and 5, and
the loop's every action is exactly a timeout-5 heartbeat request or a
30-second sleep, with the break threshold taken from the environment
value. -/
theorem only_threshold_env_configurable (env : String → Option Nat)
    (st : ConnState) (inputs : List IterIn) :
    MAX_HEARTBEAT_FAILURES env = (env "MAX_HEARTBEAT_FAILURES").getD 3 ∧
    heartbeat_check env st inputs =
      runHeartbeat (MAX_HEARTBEAT_FAILURES env) st inputs ∧
    ((heartbeat_check env st inputs).actions.all fun a =>
      decide (a = .request "heartbeat" "GET" 5) || decide (a = .sleep 30))
      = true := by
  refine ⟨rfl, rfl, ?_⟩
  rw [List.all_eq_true]
  intro a ha
  simp only [heartbeat_check] at ha
  rcases run_actions_shape (MAX_HEARTBEAT_FAILURES env) inputs st a ha
    with h | h
  · simp [h]
  · simp [h]

/-- Claim C10: the loop never writes `connection_state["connected"]` or
`connection_state["reconnect_in_progress"]`: the body touches only
`heartbeat_failures` and `last_heartbeat` on every path, and a whole run
with no external writes leaves `connected` exactly as it started — in
particular still true after the circuit breaker trips. -/
theorem loop_never_writes_connected (M : Nat) (st : ConnState)
    (inputs : List IterIn) :
    (runHeartbeat M st inputs).state.reconnect_in_progress
      = st.reconnect_in_progress ∧
    ((∀ i ∈ inputs, i.extConnected = none) →
      (runHeartbeat M st inputs).state.connected = st.connected) ∧
    ∀ o now, (heartbeatBody M st o now).state.connected = st.connected ∧
      (heartbeatBody M st o now).state.reconnect_in_progress
        = st.reconnect_in_progress :=
  ⟨run_reconnect M inputs st, run_connected_ext M inputs st,
   fun o now =>
     ⟨heartbeatBody_connected M st o now, heartbeatBody_reconnect M st o now⟩⟩

/-- Witness for C10: three consecutive failures with threshold 3 trip the
circuit breaker, and `connected` is still true afterwards. -/
theorem loop_never_writes_connected_witness :
    (∀ i ∈ threeFailures, i.extConnected = none) ∧
    (runHeartbeat 3 runningState threeFailures).state.connected
      = runningState.connected ∧
    (runHeartbeat 3 runningState threeFailures).state.connected = true ∧
    (runHeartbeat 3 runningState threeFailures).state.heartbeat_failures
      = 3 :=
  ⟨by decide,
   (loop_never_writes_connected 3 runningState threeFailures).2.1 (by decide),
   by decide, by decide⟩
